import Mathlib

/-!
Shallow embedding of the bytecode interpreter in `vm.py` (class `Frame` and
its opcode handlers), together with proofs settling the specification claims.

Modelling conventions:
* The Python operand stack `data_stack` (a Python list, top = last element)
  is a Lean `List PyVal` with the same orientation: index 0 is the bottom of
  the stack, pushes append on the right.  A "deepest-first" sequence is thus
  simply a list in its natural order.
* Python `dict`s are association lists with unique keys; assignment
  (`d[k] = v`) replaces the entry in place when the key is present and
  appends otherwise, which reproduces insertion-order semantics.
* Scope dictionaries (`locals`, `globals`, `builtins`) have string keys;
  value dictionaries flowing on the stack have `PyVal` keys.
* Fallible Python operations (list.pop on empty, dict KeyError, unhashable
  probes, raised TypeError/ValueError/NameError) are `Except VMError`.
* `f_lasti` and instruction offsets are `Int` (Python ints); the
  instruction table `instructions_offset` is an offset-keyed association
  list.
* The unbounded `while` loop of `Frame.run` is embedded with explicit fuel;
  `VMError.outOfFuel` marks fuel exhaustion only and corresponds to no
  Python behaviour.
-/

/-- The dynamically-typed value universe flowing through the stack and the
scopes.  Python iterators are mutable objects; here an iterator value
carries its remaining elements, and the in-place mutation performed by
`next` is modelled by replacing the iterator on the stack with its advanced
form. -/
inductive PyVal where
  | none
  | int (n : Int)
  | bool (b : Bool)
  | str (s : String)
  | tuple (xs : List PyVal)
  | list (xs : List PyVal)
  | dict (entries : List (PyVal × PyVal))
  | iter (rest : List PyVal)
deriving Repr

/-- Errors raised by the interpreter.  The string payloads mirror the
messages of `vm.py` (quotes and interpolated reprs elided). -/
inductive VMError where
  | nameError (msg : String)
  | unboundLocal (msg : String)
  | typeError (msg : String)
  | valueError (msg : String)
  | indexError
  | keyError
  | outOfFuel
deriving Repr, DecidableEq

/-- Equality used when probing dictionary keys, i.e. Python `==` restricted
to the hashable key shapes this development exercises (None, ints, bools,
strings).  Container values never reach a successful key comparison here:
dicts and lists are rejected as unhashable before any comparison happens,
and no claim hashes tuples or iterators, so the recursive tuple case of
Python equality (and the numeric `1 == True` cross-type case) is elided. -/
def pyKeyEq : PyVal → PyVal → Bool
  | .none, .none => true
  | .int a, .int b => a == b
  | .bool a, .bool b => a == b
  | .str a, .str b => a == b
  | _, _ => false

/-- Whether a value may be hashed (used as / probed against a dict key).
Python dicts, lists and sets are unhashable; scalars and iterators are
hashable.  A Python tuple is hashable iff its elements are; the tuples
appearing in this development contain only hashable scalars, so the
element check is elided. -/
def pyHashable : PyVal → Bool
  | .dict _ => false
  | .list _ => false
  | _ => true

/-- Python dict assignment `d[k] = v` on a `PyVal`-keyed dict: replace in
place if the key is present, else append. -/
def dictSetPy (d : List (PyVal × PyVal)) (k : PyVal) (v : PyVal) :
    List (PyVal × PyVal) :=
  if d.any (fun p => pyKeyEq p.1 k) then
    d.map (fun p => if pyKeyEq p.1 k then (k, v) else p)
  else d ++ [(k, v)]

/-- Python `dict.update(d, inc)` for a dict argument: existing keys are
overwritten, new keys are appended in order. -/
def dictUpdatePy (d inc : List (PyVal × PyVal)) : List (PyVal × PyVal) :=
  inc.foldl (fun acc p => dictSetPy acc p.1 p.2) d

/-- Python `k in d.keys()`: hashes the probe first, so an unhashable probe
raises TypeError before any comparison. -/
def pyContainsKey (d : List (PyVal × PyVal)) (k : PyVal) :
    Except VMError Bool :=
  if pyHashable k then .ok (d.any (fun p => pyKeyEq p.1 k))
  else .error (.typeError "unhashable type")

/-- String-keyed dict assignment (scope dictionaries): replace in place if
present, else append. -/
def dictSetS (d : List (String × PyVal)) (k : String) (v : PyVal) :
    List (String × PyVal) :=
  if d.any (fun p => p.1 == k) then
    d.map (fun p => if p.1 == k then (k, v) else p)
  else d ++ [(k, v)]

/-- Python `dict.update` on string-keyed dicts. -/
def dictUpdateS (d upd : List (String × PyVal)) : List (String × PyVal) :=
  upd.foldl (fun acc p => dictSetS acc p.1 p.2) d

/-- Python `dict.pop(k)`-style removal of a key from a string-keyed dict
(the key is known to be present where this is used). -/
def eraseS (d : List (String × PyVal)) (k : String) :
    List (String × PyVal) :=
  d.filter (fun p => !(p.1 == k))

/-! ## Stack operations (`Frame.push`, `Frame.pop`, `Frame.popn`,
`Frame.rot_n_op`), lines 37-62 and 373-378 of `vm.py`. -/

/-- `Frame.push(*values)`: `self.data_stack.extend(values)`. -/
def push (stack values : List PyVal) : List PyVal := stack ++ values

/-- `Frame.pop()`: `self.data_stack.pop()`; IndexError on an empty list. -/
def popE (stack : List PyVal) : Except VMError (PyVal × List PyVal) :=
  match stack.getLast? with
  | some v => .ok (v, stack.dropLast)
  | none => .error .indexError

/-- `Frame.top()`: `self.data_stack[-1]`; IndexError on an empty list. -/
def topE (stack : List PyVal) : Except VMError PyVal :=
  match stack.getLast? with
  | some v => .ok v
  | none => .error .indexError

/-- `Frame.popn(n)` (lines 52-62): for `n > 0` the slice
`data_stack[-n:]` is returned (deepest-first, clamped to the whole list
when `n` exceeds the depth) and removed; for `n ≤ 0` nothing is popped and
the empty list is returned.  Result: `(returned, remaining stack)`. -/
def popn (n : Int) (stack : List PyVal) : List PyVal × List PyVal :=
  if 0 < n then
    (stack.drop (stack.length - n.toNat), stack.take (stack.length - n.toNat))
  else ([], stack)

/-- `Frame.rot_n_op(n)` (lines 373-378): pop the top value, pop the next
`n-1` values with `popn`, push the first popped value, then push the
others in their original order. -/
def rot_n_op (n : Int) (stack : List PyVal) :
    Except VMError (List PyVal) := do
  let (first, s1) ← popE stack
  let (others, s2) := popn (n - 1) s1
  pure (push (push s2 [first]) others)

/-- Python indexing `l[idx]` with negative-index semantics
(`l[-i]` counts from the end); IndexError when out of range. -/
def pyGet (l : List PyVal) (idx : Int) : Except VMError PyVal :=
  let j : Int := if idx < 0 then idx + l.length else idx
  if h : 0 ≤ j ∧ j.toNat < l.length then .ok (l.get ⟨j.toNat, h.2⟩)
  else .error .indexError

/-- In-place mutation of the stack slot `l[idx]` (used to model
`dict.update(self.data_stack[-i], ...)`, which mutates the container held
in that slot). -/
def pySet (l : List PyVal) (idx : Int) (v : PyVal) :
    Except VMError (List PyVal) :=
  let j : Int := if idx < 0 then idx + l.length else idx
  if 0 ≤ j ∧ j.toNat < l.length then .ok (l.set j.toNat v)
  else .error .indexError

/-! ## Container mutation opcodes (`Frame.dict_update_op`,
`Frame.dict_merge_op`), lines 675-684 of `vm.py`. -/

/-- `Frame.dict_update_op(i)` (lines 675-677): pop the top value and
`dict.update` the mapping at stack slot `data_stack[-i]` with it,
overwriting existing keys.  `dict.update` requires a mapping argument. -/
def dict_update_op (i : Int) (stack : List PyVal) :
    Except VMError (List PyVal) := do
  let (tos, s) ← popE stack
  let target ← pyGet s (-i)
  match target, tos with
  | .dict d, .dict inc => pySet s (-i) (.dict (dictUpdatePy d inc))
  | _, _ => .error (.typeError "dict argument required")

/-- `Frame.dict_merge_op(i)` (lines 679-684), translated as written: pop
the top value `tos`, test `tos in dict(self.data_stack[-i]).keys()` (a
membership probe of the popped value itself against the target's keys,
which raises TypeError whenever `tos` is an unhashable mapping), and then
`dict.update` the target when the probe succeeds, else raise ValueError. -/
def dict_merge_op (i : Int) (stack : List PyVal) :
    Except VMError (List PyVal) := do
  let (tos, s) ← popE stack
  let target ← pyGet s (-i)
  match target with
  | .dict d => do
      let isKey ← pyContainsKey d tos
      if isKey then
        match tos with
        | .dict inc => pySet s (-i) (.dict (dictUpdatePy d inc))
        | _ => .error (.typeError "dict argument required")
      else .error (.valueError "exists")
  | _ => .error (.typeError "cannot convert to dict")

/-! ## The evaluation frame and the dispatch loop (`Frame.__init__`,
`Frame.run`), lines 21-33 and 66-71 of `vm.py`. -/

/-- The decoded instructions needed by the claims, with decoded operands as
`dis` supplies them via `instruction.argval` (jump operands are already
resolved to absolute target offsets). -/
inductive Instr where
  | load_const (v : PyVal)
  | load_name (s : String)
  | store_name (s : String)
  | return_value
  | jump_absolute (target : Int)
  | for_iter (target : Int)
deriving Repr

/-- One activation: operand stack, the three scopes, return slot,
program counter `f_lasti`, and the offset-keyed instruction table. -/
structure Frame where
  dataStack : List PyVal
  locals : List (String × PyVal)
  globals : List (String × PyVal)
  builtins : List (String × PyVal)
  returnValue : PyVal
  fLasti : Int
  instrs : List (Int × Instr)
deriving Repr

/-- Push onto a frame's operand stack. -/
def pushF (f : Frame) (v : PyVal) : Frame :=
  { f with dataStack := push f.dataStack [v] }

/-! ### Opcode handlers used by the claims. -/

/-- `Frame.load_name_op` (lines 75-83): local, then global, then builtin;
first hit is pushed; absent everywhere raises NameError.  (The source
message is the literal, uninterpolated `name ... is not defined`.) -/
def load_name_op (arg : String) (f : Frame) : Except VMError Frame :=
  match f.locals.lookup arg with
  | some v => .ok (pushF f v)
  | none =>
    match f.globals.lookup arg with
    | some v => .ok (pushF f v)
    | none =>
      match f.builtins.lookup arg with
      | some v => .ok (pushF f v)
      | none => .error (.nameError "name is not defined")

/-- `Frame.load_const_op` (lines 348-356): push the decoded constant. -/
def load_const_op (arg : PyVal) (f : Frame) : Except VMError Frame :=
  .ok (pushF f arg)

/-- `Frame.store_name_op` (lines 88-90): pop and bind in the local scope. -/
def store_name_op (arg : String) (f : Frame) : Except VMError Frame := do
  let (v, s) ← popE f.dataStack
  .ok { f with dataStack := s, locals := dictSetS f.locals arg v }

/-- `Frame.return_value_op` (lines 632-640): pop the top of the stack into
the return-value slot.  Nothing else happens: in particular the handler
does not signal the dispatch loop. -/
def return_value_op (f : Frame) : Except VMError Frame := do
  let (v, s) ← popE f.dataStack
  .ok { f with dataStack := s, returnValue := v }

/-- `Frame.jump_absolute_op` (lines 725-726): `f_lasti := target - 2`,
compensating the loop's post-handler `+2`. -/
def jump_absolute_op (target : Int) (f : Frame) : Except VMError Frame :=
  .ok { f with fLasti := target - 2 }

/-- `Frame.for_iter_op` (lines 756-762): peek at the top value; `next` on
it pushes the produced element (the iterator, advanced in place, stays
beneath it); on StopIteration pop the iterator and jump to the exit
target.  `next` on a non-iterator raises TypeError. -/
def for_iter_op (target : Int) (f : Frame) : Except VMError Frame :=
  match topE f.dataStack with
  | .error e => .error e
  | .ok (.iter (x :: xs)) =>
      .ok { f with dataStack := push (push f.dataStack.dropLast [.iter xs]) [x] }
  | .ok (.iter []) =>
      jump_absolute_op target { f with dataStack := f.dataStack.dropLast }
  | .ok _ => .error (.typeError "not an iterator")

/-- Dispatch on the opcode, mirroring the by-name handler dispatch of
`Frame.run` line 69. -/
def execInstr : Instr → Frame → Except VMError Frame
  | .load_const v => load_const_op v
  | .load_name s => load_name_op s
  | .store_name s => store_name_op s
  | .return_value => return_value_op
  | .jump_absolute t => jump_absolute_op t
  | .for_iter t => for_iter_op t

/-- `max(self.instructions_offset.keys())` for a non-empty table (`run`
guards the empty case, where Python `max` raises, separately). -/
def maxKey : List (Int × Instr) → Int
  | [] => 0
  | (k, _) :: rest => rest.foldl (fun m p => max m p.1) k

/-- One iteration of the dispatch loop body (lines 68-70): fetch the
instruction at `f_lasti` (KeyError when no instruction sits at that
offset), run its handler, then advance `f_lasti` by 2. -/
def step (f : Frame) : Except VMError Frame :=
  match f.instrs.lookup f.fLasti with
  | none => .error .keyError
  | some i =>
    match execInstr i f with
    | .ok f' => .ok { f' with fLasti := f'.fLasti + 2 }
    | .error e => .error e

/-- `Frame.run` (lines 66-71): iterate the loop body while
`f_lasti ≤ max(instructions_offset.keys())`; on exit the frame is
returned (the caller reads `return_value`).  The fuel parameter only
bounds the unbounded `while`; `max` of an empty table raises ValueError. -/
def run : Nat → Frame → Except VMError Frame
  | 0, _ => .error .outOfFuel
  | n + 1, f =>
    if f.instrs.isEmpty then .error (.valueError "max arg is an empty sequence")
    else if f.fLasti ≤ maxKey f.instrs then
      match step f with
      | .ok f' => run n f'
      | .error e => .error e
    else .ok f

/-- The value `Frame.run` returns: `self.return_value`. -/
def runResult (fuel : Nat) (f : Frame) : Except VMError PyVal :=
  (run fuel f).map (fun fr => fr.returnValue)

/-! ## The call subsystem (`Frame.arg_binding`, `Frame.make_function_op`),
lines 457-585 of `vm.py`. -/

/-- The code-object attributes `arg_binding` reads. -/
structure CodeUnit where
  co_varnames : List String
  co_argcount : Nat
  co_posonlyargcount : Nat
  co_kwonlyargcount : Nat
  co_flags : Nat
deriving Repr

def CO_VARARGS : Nat := 4
def CO_VARKEYWORDS : Nat := 8

def ERR_TOO_MANY_POS_ARGS : String := "Too many positional arguments"
def ERR_TOO_MANY_KW_ARGS : String := "Too many keyword arguments"
def ERR_MULT_VALUES_FOR_ARG : String := "Multiple values for arguments"
def ERR_MISSING_POS_ARGS : String := "Missing positional arguments"
def ERR_MISSING_KWONLY_ARGS : String := "Missing keyword-only arguments"
def ERR_POSONLY_PASSED_AS_KW : String :=
  "Positional-only argument passed as keyword argument"

/-- Lines 489-494: with no catch-all-keyword flag, every keyword must name
a declared parameter (else TooManyKeyword) and must not name a
positional-only parameter (else PositionalOnlyPassedAsKeyword).  Keywords
are scanned in insertion order, as `for key in kwargs.keys()` does. -/
def checkKwargs (varnames posonly : List String)
    (kwargs : List (String × PyVal)) : Except VMError Unit :=
  match kwargs with
  | [] => .ok ()
  | (k, _) :: rest =>
    if !(varnames.contains k) then .error (.typeError ERR_TOO_MANY_KW_ARGS)
    else if posonly.contains k then .error (.typeError ERR_POSONLY_PASSED_AS_KW)
    else checkKwargs varnames posonly rest

/-- Lines 501-507: the positional-only loop.  Each name consumes the front
of `args_list`, else its default, else MissingPositionalArgument.
Carries and returns `(result, args_list)`. -/
def bindPosonly (defaults_dict : List (String × PyVal)) :
    List String → List (String × PyVal) → List PyVal →
    Except VMError (List (String × PyVal) × List PyVal)
  | [], result, args_list => .ok (result, args_list)
  | elem :: rest, result, args_list =>
    match args_list with
    | a :: as2 => bindPosonly defaults_dict rest (dictSetS result elem a) as2
    | [] =>
      match defaults_dict.lookup elem with
      | some dv => bindPosonly defaults_dict rest (dictSetS result elem dv) []
      | none => .error (.typeError ERR_MISSING_POS_ARGS)

/-- Lines 509-519: the positional-or-keyword loop.  A name consumes the
front of `args_list` (and raising MultipleValuesForArgument if it is also
a keyword), else its keyword (removed from `kwargs`), else its default,
else MissingPositionalArgument.  Carries `(result, args_list, kwargs)`. -/
def bindPoskw (defaults_dict : List (String × PyVal)) :
    List String → List (String × PyVal) → List PyVal →
    List (String × PyVal) →
    Except VMError (List (String × PyVal) × List PyVal × List (String × PyVal))
  | [], result, args_list, kwargs => .ok (result, args_list, kwargs)
  | elem :: rest, result, args_list, kwargs =>
    match args_list with
    | a :: as2 =>
      let result2 := dictSetS result elem a
      if kwargs.any (fun p => p.1 == elem) then
        .error (.typeError ERR_MULT_VALUES_FOR_ARG)
      else bindPoskw defaults_dict rest result2 as2 kwargs
    | [] =>
      match kwargs.lookup elem with
      | some v => bindPoskw defaults_dict rest (dictSetS result elem v) []
          (eraseS kwargs elem)
      | none =>
        match defaults_dict.lookup elem with
        | some dv => bindPoskw defaults_dict rest (dictSetS result elem dv) [] kwargs
        | none => .error (.typeError ERR_MISSING_POS_ARGS)

/-- Lines 521-530: the keyword-only loop.  A name takes its keyword
(removed from `kwargs`), else its entry in `kwdefaults`, else
MissingKeywordOnlyArgument (also when `kwdefaults` is None).
Carries `(result, kwargs)`. -/
def bindKwonly (kwdefaults : Option (List (String × PyVal))) :
    List String → List (String × PyVal) → List (String × PyVal) →
    Except VMError (List (String × PyVal) × List (String × PyVal))
  | [], result, kwargs => .ok (result, kwargs)
  | elem :: rest, result, kwargs =>
    match kwargs.lookup elem with
    | some v => bindKwonly kwdefaults rest (dictSetS result elem v)
        (eraseS kwargs elem)
    | none =>
      match kwdefaults with
      | some kd =>
        match kd.lookup elem with
        | none => .error (.typeError ERR_MISSING_KWONLY_ARGS)
        | some dv => bindKwonly kwdefaults rest (dictSetS result elem dv) kwargs
      | none => .error (.typeError ERR_MISSING_KWONLY_ARGS)

/-- List indexing `l[i]` with IndexError, for `other[0]` / `other[1]`. -/
def getIndexS (l : List String) (i : Nat) : Except VMError String :=
  match l.get? i with
  | some s => .ok s
  | none => .error .indexError

/-- The leftover keyword dict as a Python value (`result[...] = kwargs`). -/
def kwargsVal (kwargs : List (String × PyVal)) : PyVal :=
  .dict (kwargs.map (fun p => (.str p.1, p.2)))

/-- `Frame.arg_binding(argdef, kwdef, code, *args, **kwargs)`
(lines 457-541), translated clause by clause:
parameter segmentation by `co_posonlyargcount` / `co_argcount` /
`co_kwonlyargcount`; the early return on an empty `co_varnames`; the
TooManyPositional check; the keyword admissibility check when no
catch-all-keyword flag; `defaults_dict` built from the trailing-aligned
`argdef`; the three binding loops; and the catch-all tail that stores the
leftover positional tuple and keyword dict. -/
def arg_binding (argdef : Option (List PyVal))
    (kwdef : Option (List (String × PyVal))) (code : CodeUnit)
    (args : List PyVal) (kwargs : List (String × PyVal)) :
    Except VMError (List (String × PyVal)) := do
  let varnames := code.co_varnames
  let argcount := code.co_argcount
  let posonlyargcount := code.co_posonlyargcount
  let kwonlyargcount := code.co_kwonlyargcount
  let flag_varargs := code.co_flags &&& CO_VARARGS
  let flag_varkwargs := code.co_flags &&& CO_VARKEYWORDS
  if varnames.length = 0 then .ok [] else do
  let posonly := varnames.take posonlyargcount
  let poskw := (varnames.take argcount).drop posonlyargcount
  let kwonly := (varnames.take (argcount + kwonlyargcount)).drop argcount
  let other := varnames.drop (argcount + kwonlyargcount)
  if args.length > argcount ∧ flag_varargs = 0 then
    .error (.typeError ERR_TOO_MANY_POS_ARGS)
  else do
  (if flag_varkwargs = 0 then checkKwargs varnames posonly kwargs else .ok ())
  let defaults_dict : List (String × PyVal) :=
    match argdef with
    | some defaults =>
        ((posonly ++ poskw).reverse.zip defaults.reverse).foldl
          (fun acc p => dictSetS acc p.1 p.2) []
    | none => []
  let (result, args_list) ← bindPosonly defaults_dict posonly [] args
  let (result, args_list, kwargs) ←
    bindPoskw defaults_dict poskw result args_list kwargs
  let (result, kwargs) ← bindKwonly kwdef kwonly result kwargs
  if flag_varargs ≠ 0 ∧ flag_varkwargs ≠ 0 then do
    let n0 ← getIndexS other 0
    let n1 ← getIndexS other 1
    .ok (dictSetS (dictSetS result n0 (.tuple args_list)) n1 (kwargsVal kwargs))
  else do
    let r1 ← if flag_varargs ≠ 0 then do
        let n0 ← getIndexS other 0
        pure (dictSetS result n0 (.tuple args_list))
      else pure result
    if flag_varkwargs ≠ 0 then do
      let n0 ← getIndexS other 0
      pure (dictSetS r1 n0 (kwargsVal kwargs))
    else pure r1

/-- The argument parsing the closure built by `make_function_op` actually
performs (line 578): the dict comprehension
`co_varnames[i] : args[i] for i in range(co_argcount)` — positional
binding only, IndexError when fewer than `co_argcount` positional
arguments arrive, keywords never consulted. -/
def simpleParse (code : CodeUnit) (args : List PyVal) :
    Except VMError (List (String × PyVal)) :=
  (List.range code.co_argcount).foldlM
    (fun acc i =>
      match code.co_varnames.get? i, args.get? i with
      | some nm, some v => .ok (dictSetS acc nm v)
      | _, _ => .error (.indexError)) []

/-- The body of the closure `f` built by `Frame.make_function_op`
(lines 573-583).  The closure holds the defining frame `self` by
reference and evaluates `dict(self.locals)` only when invoked, so
`definingLocals` is the defining frame's local scope at the moment of
THIS call (not at `make_function` time).  `kwargs` is accepted
(`def f(*args, **kwargs)`) but never read by the body.  The new frame
runs the function's code with locals = copy of `definingLocals` updated
with the parsed arguments, sharing `builtins` and `globals`. -/
def closureInvoke (fuel : Nat) (code : CodeUnit) (instrs : List (Int × Instr))
    (definingLocals builtins globals : List (String × PyVal))
    (args : List PyVal) (kwargs : List (String × PyVal)) :
    Except VMError PyVal := do
  let _ := kwargs
  let parsed ← simpleParse code args
  let fLocals := dictUpdateS definingLocals parsed
  runResult fuel
    { dataStack := [], locals := fLocals, globals := globals,
      builtins := builtins, returnValue := .none, fLasti := 0,
      instrs := instrs }

/-! ## Concrete scenarios used by the claims. -/

/-- The code unit of `f(a, b=1, *c, d, **e)`: `co_varnames` lists the two
positional-or-keyword names, then the keyword-only name, then the
catch-all-positional and catch-all-keyword names (CPython ordering);
`co_argcount = 2`, `co_kwonlyargcount = 1`, and `co_flags` has both
CO_VARARGS and CO_VARKEYWORDS set. -/
def fCode : CodeUnit :=
  { co_varnames := ["a", "b", "d", "c", "e"], co_argcount := 2,
    co_posonlyargcount := 0, co_kwonlyargcount := 1,
    co_flags := CO_VARARGS + CO_VARKEYWORDS }

/-- The code unit of `g(a)`: one positional-or-keyword parameter and no
catch-all segments. -/
def gCode : CodeUnit :=
  { co_varnames := ["a"], co_argcount := 1, co_posonlyargcount := 0,
    co_kwonlyargcount := 0, co_flags := 0 }

/-- A code unit with no parameters at all. -/
def c0Code : CodeUnit :=
  { co_varnames := [], co_argcount := 0, co_posonlyargcount := 0,
    co_kwonlyargcount := 0, co_flags := 0 }

/-- An instruction stream with a return mid-stream: decoded instructions
exist at offsets strictly after the first return. -/
def c2Instrs : List (Int × Instr) :=
  [(0, .load_const (.int 1)), (2, .return_value),
   (4, .load_const (.int 2)), (6, .return_value)]

/-- The initial frame over `c2Instrs` with empty stack and scopes. -/
def c2Frame : Frame :=
  { dataStack := [], locals := [], globals := [], builtins := [],
    returnValue := .none, fLasti := 0, instrs := c2Instrs }

/-- The frame state reached after executing offsets 0 and 2 of `c2Instrs`:
the return handler has filled the return slot with 1 and the program
counter sits at offset 4. -/
def c2AfterReturn : Frame :=
  { dataStack := [], locals := [], globals := [], builtins := [],
    returnValue := .int 1, fLasti := 4, instrs := c2Instrs }

/-- A one-instruction frame holding `for-iter` with exit target 8, over a
given operand stack. -/
def c6Frame (s : List PyVal) : Frame :=
  { dataStack := s, locals := [], globals := [], builtins := [],
    returnValue := .none, fLasti := 0, instrs := [(0, .for_iter 8)] }

/-- The function body `LOAD_NAME x; RETURN_VALUE`. -/
def c9Instrs : List (Int × Instr) :=
  [(0, .load_name "x"), (2, .return_value)]

/-- The frame `closureInvoke` builds for `c0Code` over `c9Instrs` when the
defining frame's locals are `L` at call time (no arguments to merge). -/
def c9Frame0 (L : List (String × PyVal)) : Frame :=
  { dataStack := [], locals := L, globals := [], builtins := [],
    returnValue := .none, fLasti := 0, instrs := c9Instrs }

/-- `c9Frame0` after `LOAD_NAME x` pushed the binding `v` of `x`. -/
def c9Frame1 (L : List (String × PyVal)) (v : PyVal) : Frame :=
  { dataStack := [v], locals := L, globals := [], builtins := [],
    returnValue := .none, fLasti := 2, instrs := c9Instrs }

/-- `c9Frame1` after `RETURN_VALUE` moved `v` to the return slot. -/
def c9Frame2 (L : List (String × PyVal)) (v : PyVal) : Frame :=
  { dataStack := [], locals := L, globals := [], builtins := [],
    returnValue := v, fLasti := 4, instrs := c9Instrs }

/-- A frame binding `x` in all three scopes, to three different values. -/
def c4Frame : Frame :=
  { dataStack := [], locals := [("x", .int 1)], globals := [("x", .int 2)],
    builtins := [("x", .int 3)], returnValue := .none, fLasti := 0,
    instrs := [] }

/-- A frame with all three scopes empty. -/
def c4Empty : Frame :=
  { dataStack := [], locals := [], globals := [], builtins := [],
    returnValue := .none, fLasti := 0, instrs := [] }

/-- A one-instruction frame holding an absolute jump to offset 6. -/
def c5Frame : Frame :=
  { dataStack := [], locals := [], globals := [], builtins := [],
    returnValue := .none, fLasti := 0, instrs := [(0, .jump_absolute 6)] }

/-! ## Generic dispatch-loop lemmas. -/

/-- Reduction of a successful bind in the error monad (the do-notation of
this embedding). -/
theorem exceptBind_ok {ε α β : Type} (a : α) (g : α → Except ε β) :
    (Except.ok a : Except ε α) >>= g = g a := rfl

/-- One non-terminal iteration of `run`: when instructions exist, the
program counter is within range and the loop body succeeds, `run` with one
more unit of fuel continues from the stepped frame. -/
theorem run_cont (n : Nat) (f f' : Frame) (hne : f.instrs.isEmpty = false)
    (hle : f.fLasti ≤ maxKey f.instrs) (hstep : step f = .ok f') :
    run (n + 1) f = run n f' := by
  simp [run, hne, hle, hstep]

/-- The loop halts as soon as the program counter exceeds the maximum
decoded offset, returning the frame. -/
theorem run_halt (n : Nat) (f : Frame) (hne : f.instrs.isEmpty = false)
    (hgt : ¬ f.fLasti ≤ maxKey f.instrs) :
    run (n + 1) f = .ok f := by
  simp [run, hne, hgt]

/-! ## Claim theorems. -/

/-- C1.  The §4.7 binding algorithm is fully implemented by `arg_binding`
and produces exactly the claimed bindings and error kinds on the four
scenario calls — but the callable that `make_function_op` actually builds
never invokes it: line 578 binds positionally only, so the very first
claimed call `f(1, d=2)` raises IndexError from the closure instead of
binding `a=1, b=1, c=(), d=2, e={}`.  The first four conjuncts evaluate
`arg_binding` (the algorithm the claim describes); the last evaluates the
closure built by `make_function_op` at the claim's first call. -/
theorem C1_binding_algorithm_present_but_unused :
    arg_binding (some [.int 1]) none fCode [.int 1] [("d", .int 2)]
      = .ok [("a", .int 1), ("b", .int 1), ("d", .int 2),
             ("c", .tuple []), ("e", .dict [])]
  ∧ arg_binding (some [.int 1]) none fCode [.int 1, .int 2, .int 3]
      [("d", .int 4), ("z", .int 5)]
      = .ok [("a", .int 1), ("b", .int 2), ("d", .int 4),
             ("c", .tuple [.int 3]), ("e", .dict [(.str "z", .int 5)])]
  ∧ arg_binding (some [.int 1]) none gCode [.int 1] [("z", .int 5)]
      = .error (.typeError ERR_TOO_MANY_KW_ARGS)
  ∧ arg_binding (some [.int 1]) none fCode [.int 1] []
      = .error (.typeError ERR_MISSING_KWONLY_ARGS)
  ∧ closureInvoke 10 fCode [] [] [] [] [.int 1] [("d", .int 2)]
      = .error .indexError :=
  ⟨rfl, rfl, rfl, rfl, rfl⟩

/-- C2.  The dispatch loop does not halt when the return handler runs:
after the return at offset 2 has filled the return slot with 1, the
program counter (4) is still within the loop bound, and the full run
executes the instructions at offsets 4 and 6, overwriting the return
value with 2.  The claim predicts a final return value of 1. -/
theorem C2_return_does_not_halt_loop :
    (step c2Frame).bind step = .ok c2AfterReturn
  ∧ c2AfterReturn.returnValue = .int 1
  ∧ c2AfterReturn.fLasti ≤ maxKey c2AfterReturn.instrs
  ∧ runResult 5 c2Frame = .ok (.int 2) :=
  ⟨rfl, rfl, by decide, rfl⟩

/-- C3.  `dict_merge_op` never implements the claimed policy: it probes
the popped mapping ITSELF against the target's keys — which raises
TypeError (unhashable) for every dict argument — and its branches are
inverted (it would merge when the probe succeeds and raise when it
fails).  With disjoint keys the claim says the merge succeeds; the code
raises.  With a shared key the claim says ContainerMergeConflict; the
code raises the same unhashable TypeError.  Plain `dict_update_op`, by
contrast, merges with overwrite exactly as claimed (last two
conjuncts). -/
theorem C3_dict_merge_raises_on_disjoint_keys :
    dict_merge_op 1 [.dict [(.str "a", .int 1)], .dict [(.str "b", .int 2)]]
      = .error (.typeError "unhashable type")
  ∧ dict_merge_op 1 [.dict [(.str "a", .int 1)], .dict [(.str "a", .int 2)]]
      = .error (.typeError "unhashable type")
  ∧ dict_update_op 1 [.dict [(.str "a", .int 1)], .dict [(.str "b", .int 2)]]
      = .ok [.dict [(.str "a", .int 1), (.str "b", .int 2)]]
  ∧ dict_update_op 1 [.dict [(.str "a", .int 1)], .dict [(.str "a", .int 2)]]
      = .ok [.dict [(.str "a", .int 2)]] :=
  ⟨rfl, rfl, rfl, rfl⟩

/-- C4.  `load_name_op` resolves local, then global, then builtin, pushing
the first binding found; in particular a name bound in all three scopes
resolves to the local binding (first conjunct, which holds regardless of
the other scopes), and a name absent from all three raises NameError. -/
theorem C4_load_name_resolution (f : Frame) (arg : String) :
    (∀ vl, f.locals.lookup arg = some vl →
      load_name_op arg f = .ok (pushF f vl))
  ∧ (f.locals.lookup arg = none → ∀ vg, f.globals.lookup arg = some vg →
      load_name_op arg f = .ok (pushF f vg))
  ∧ (f.locals.lookup arg = none → f.globals.lookup arg = none →
      ∀ vb, f.builtins.lookup arg = some vb →
      load_name_op arg f = .ok (pushF f vb))
  ∧ (f.locals.lookup arg = none → f.globals.lookup arg = none →
      f.builtins.lookup arg = none →
      load_name_op arg f = .error (.nameError "name is not defined")) := by
  refine ⟨?_, ?_, ?_, ?_⟩ <;> intros <;> simp [load_name_op, *]

/-- Witness for C4: on a frame binding `x` to 1 locally, 2 globally and 3
among the builtins, `load_name_op` pushes the local value 1; on a frame
with all scopes empty it raises NameError. -/
theorem C4_load_name_resolution_witness :
    load_name_op "x" c4Frame = .ok (pushF c4Frame (.int 1))
  ∧ load_name_op "x" c4Empty = .error (.nameError "name is not defined") :=
  ⟨(C4_load_name_resolution c4Frame "x").1 (.int 1) rfl,
   (C4_load_name_resolution c4Empty "x").2.2.2 rfl rfl rfl⟩

/-- C5.  When the instruction at the current program counter is an
absolute jump to `T`, the handler sets `f_lasti := T - 2` and the loop
body's unconditional `+2` advance leaves the program counter exactly at
`T`. -/
theorem C5_jump_absolute_lands_on_target (f : Frame) (T : Int)
    (h : f.instrs.lookup f.fLasti = some (.jump_absolute T)) :
    step f = .ok { f with fLasti := T } := by
  simp [step, h, execInstr, jump_absolute_op]

/-- Witness for C5: a jump to offset 6 at offset 0 leaves the program
counter at exactly 6 after the post-handler advance. -/
theorem C5_jump_absolute_lands_on_target_witness :
    step c5Frame = .ok { c5Frame with fLasti := 6 } :=
  C5_jump_absolute_lands_on_target c5Frame 6 rfl

/-- C6.  `for_iter_op` on a stack topped by a non-exhausted iterator
pushes the iterator's next element, leaving the (advanced) iterator
beneath it; on an exhausted iterator it pops the iterator, pushes
nothing, and jumps to the exit target (handler sets `target - 2`, so the
loop advance lands on `target`).  The last three conjuncts run the
claimed `[10, 20]` scenario through the loop body: the first invocation
pushes 10, the second pushes 20, and the third pops the iterator and
leaves the program counter at the exit target 8. -/
theorem C6_for_iter_push_then_exit (pre : List PyVal) (x : PyVal)
    (xs : List PyVal) (t : Int) (f : Frame) :
    for_iter_op t { f with dataStack := pre ++ [.iter (x :: xs)] }
      = .ok { f with dataStack := pre ++ [.iter xs, x] }
  ∧ for_iter_op t { f with dataStack := pre ++ [.iter []] }
      = .ok { f with dataStack := pre, fLasti := t - 2 }
  ∧ step (c6Frame [.iter [.int 10, .int 20]])
      = .ok { c6Frame [.iter [.int 20], .int 10] with fLasti := 2 }
  ∧ step (c6Frame [.iter [.int 20]])
      = .ok { c6Frame [.iter [], .int 20] with fLasti := 2 }
  ∧ step (c6Frame [.iter []])
      = .ok { c6Frame [] with fLasti := 8 } := by
  refine ⟨?_, ?_, rfl, rfl, rfl⟩
  · simp [for_iter_op, topE, List.getLast?_concat, List.dropLast_concat, push]
  · simp [for_iter_op, topE, List.getLast?_concat, List.dropLast_concat,
      jump_absolute_op]

/-- C7.  For `0 < n ≤` stack depth, `popn n` returns exactly `n` values —
the top segment in deepest-first order (index 0 of the result is the
deepest popped value) — and pushing the result back restores the stack
exactly; for `n ≤ 0` it returns the empty sequence and pops nothing. -/
theorem C7_popn_push_roundtrip (s : List PyVal) (n : Int) :
    (0 < n → n ≤ (s.length : Int) →
      ((popn n s).1.length = n.toNat
        ∧ push (popn n s).2 (popn n s).1 = s))
  ∧ (n ≤ 0 → popn n s = ([], s)) := by
  constructor
  · intro h1 h2
    simp only [popn, if_pos h1, push]
    constructor
    · simp only [List.length_drop]
      omega
    · exact List.take_append_drop _ s
  · intro h
    simp [popn, not_lt.mpr h]

/-- Witness for C7: on the stack `[1, 2, 3]`, `popn 2` returns `[2, 3]`
(deepest-first) and pushing it back restores the stack, and `popn (-1)`
is a no-op returning the empty sequence. -/
theorem C7_popn_push_roundtrip_witness :
    ((popn 2 [.int 1, .int 2, .int 3]).1.length = (2 : Int).toNat
      ∧ push (popn 2 [.int 1, .int 2, .int 3]).2
          (popn 2 [.int 1, .int 2, .int 3]).1 = [.int 1, .int 2, .int 3])
  ∧ popn (-1) [.int 1, .int 2, .int 3] = ([], [.int 1, .int 2, .int 3]) :=
  ⟨(C7_popn_push_roundtrip [.int 1, .int 2, .int 3] 2).1 (by decide) (by decide),
   (C7_popn_push_roundtrip [.int 1, .int 2, .int 3] (-1)).2 (by decide)⟩

/-- C8.  On a stack of depth at least `n ≥ 2` — written as a prefix `pre`,
a segment `seg` of `n - 1` values and the top value `t` — `rot_n_op n`
moves the top value to depth `n - 1` (just above `pre`) and shifts the
`n - 1` segment values one position toward the top, preserving their
relative order. -/
theorem C8_rotate_moves_top_to_depth (pre seg : List PyVal) (t : PyVal)
    (n : Nat) (h2 : 2 ≤ n) (hlen : seg.length = n - 1) :
    rot_n_op (n : Int) (pre ++ seg ++ [t]) = .ok (pre ++ t :: seg) := by
  have hfirst : popE (pre ++ (seg ++ [t])) = .ok (t, pre ++ seg) := by
    rw [← List.append_assoc]
    simp [popE, List.getLast?_concat, List.dropLast_concat]
  have hpos : (0 : Int) < (n : Int) - 1 := by omega
  have hsub : (pre ++ seg).length - ((n : Int) - 1).toNat = pre.length := by
    simp only [List.length_append]
    omega
  have hpopn : popn ((n : Int) - 1) (pre ++ seg) = (seg, pre) := by
    unfold popn
    rw [if_pos hpos, hsub, List.drop_left, List.take_left]
  simp [rot_n_op, hfirst, hpopn, push]

/-- Witness for C8: `rotate(3)` on the stack `[0, x, y, z]` (z on top)
yields `[0, z, x, y]`. -/
theorem C8_rotate_moves_top_to_depth_witness :
    rot_n_op ((3 : Nat) : Int)
      ([.int 0] ++ [.int 1, .int 2] ++ [.int 3])
      = .ok ([.int 0] ++ .int 3 :: [.int 1, .int 2]) :=
  C8_rotate_moves_top_to_depth [.int 0] [.int 1, .int 2] (.int 3) 3
    (by decide) (by decide)

/-- C10.  When `n` strictly exceeds the stack depth, `popn n` does not
fail: it returns the entire stack contents (deepest-first) and leaves the
stack empty. -/
theorem C10_popn_overflow_returns_all (s : List PyVal) (n : Int)
    (h : (s.length : Int) < n) :
    popn n s = (s, []) := by
  have h0 : (0 : Int) < n := by omega
  have hz : s.length - n.toNat = 0 := by omega
  simp [popn, if_pos h0, hz]

/-- Witness for C10: `popn 5` on a stack of depth 3 returns all three
values deepest-first and empties the stack. -/
theorem C10_popn_overflow_returns_all_witness :
    popn 5 [.int 1, .int 2, .int 3] = ([.int 1, .int 2, .int 3], []) :=
  C10_popn_overflow_returns_all [.int 1, .int 2, .int 3] 5 (by decide)

/-- A defining frame about to execute `STORE_NAME x` with 2 on the stack,
its local scope still holding the creation-time binding `x = 1`. -/
def c9DefFrame : Frame :=
  { dataStack := [.int 2], locals := [("x", .int 1)], globals := [],
    builtins := [], returnValue := .none, fLasti := 0, instrs := [] }

/-- `c9DefFrame` after the store: the defining frame's local scope now
holds `x = 2`. -/
def c9DefFrameAfter : Frame :=
  { dataStack := [], locals := [("x", .int 2)], globals := [],
    builtins := [], returnValue := .none, fLasti := 0, instrs := [] }

/-- C9, counterexample.  The closure built by `make_function_op` holds the
defining frame by reference and reads `dict(self.locals)` only when
invoked, so it does NOT own a creation-time snapshot.  Scenario: the
callable is created while the defining frame's locals are `x = 1`;
`STORE_NAME x` then mutates the defining frame's locals to `x = 2`
(first conjunct); invoking the callable (body `LOAD_NAME x;
RETURN_VALUE`) now returns 2, the post-creation value (second conjunct) —
not 1, the creation-time value the claim predicts (fourth conjunct).
Invoking before the mutation would have returned 1 (third conjunct). -/
theorem C9_capture_reads_locals_at_call_time :
    store_name_op "x" c9DefFrame = .ok c9DefFrameAfter
  ∧ closureInvoke 10 c0Code c9Instrs [("x", .int 2)] [] [] [] [] = .ok (.int 2)
  ∧ closureInvoke 10 c0Code c9Instrs [("x", .int 1)] [] [] [] [] = .ok (.int 1)
  ∧ ¬ closureInvoke 10 c0Code c9Instrs [("x", .int 2)] [] [] [] []
      = .ok (.int 1) := by
  refine ⟨rfl, rfl, rfl, ?_⟩
  intro h
  have h2 : (Except.ok (PyVal.int 2) : Except VMError PyVal)
      = Except.ok (PyVal.int 1) :=
    (rfl : closureInvoke 10 c0Code c9Instrs [("x", .int 2)] [] [] [] []
      = .ok (.int 2)).symm.trans h
  injection h2 with hv
  injection hv with hn
  omega

/-- C9, amended.  Each invocation of the callable builds the new frame's
local scope by copying the defining frame's local scope AS OF INVOCATION
TIME and merging the bound arguments over the copy: for the body
`LOAD_NAME x; RETURN_VALUE` and no parameters, whatever value `x` has in
the defining frame's locals when the call happens is what the invocation
returns. -/
theorem C9_invocation_sees_call_time_locals (L : List (String × PyVal))
    (v : PyVal) (fuel : Nat) (h : L.lookup "x" = some v) :
    closureInvoke (fuel + 3) c0Code c9Instrs L [] [] [] [] = .ok v := by
  have h1 : step (c9Frame0 L) = .ok (c9Frame1 L v) := by
    simp [step, c9Frame0, c9Frame1, c9Instrs, List.lookup, execInstr,
      load_name_op, h, pushF, push]
  have h2 : step (c9Frame1 L v) = .ok (c9Frame2 L v) := by
    simp [step, c9Frame1, c9Frame2, c9Instrs, List.lookup, execInstr,
      return_value_op, popE, exceptBind_ok]
  have e0 : closureInvoke (fuel + 3) c0Code c9Instrs L [] [] [] []
      = runResult (fuel + 3) (c9Frame0 L) := rfl
  have e1 : run (fuel + 3) (c9Frame0 L) = run (fuel + 2) (c9Frame1 L v) :=
    run_cont (fuel + 2) (c9Frame0 L) (c9Frame1 L v) rfl
      (show (0 : Int) ≤ maxKey c9Instrs by decide) h1
  have e2 : run (fuel + 2) (c9Frame1 L v) = run (fuel + 1) (c9Frame2 L v) :=
    run_cont (fuel + 1) (c9Frame1 L v) (c9Frame2 L v) rfl
      (show (2 : Int) ≤ maxKey c9Instrs by decide) h2
  have e3 : run (fuel + 1) (c9Frame2 L v) = .ok (c9Frame2 L v) :=
    run_halt fuel (c9Frame2 L v) rfl
      (show ¬ (4 : Int) ≤ maxKey c9Instrs by decide)
  rw [e0]
  unfold runResult
  rw [e1, e2, e3]
  rfl

/-- Witness for the amended C9: with the defining frame's locals holding
`x = 7` at call time, the invocation returns 7. -/
theorem C9_invocation_sees_call_time_locals_witness :
    closureInvoke 3 c0Code c9Instrs [("x", .int 7)] [] [] [] []
      = .ok (.int 7) :=
  C9_invocation_sees_call_time_locals [("x", .int 7)] (.int 7) 0 rfl
